import Mathlib

/-!
Verification of `src/database/init_db.py`, the one-shot idempotent
initializer for the SQLite todo database.  The script is embedded
shallowly: file contents are strings (and, where a claim is about raw
file bytes, lists of byte values), the SQLite database at one path is a
record of the two managed tables plus the supporting index, and the whole
`main` procedure is a pure function from a world state (working
directory, descriptor file, environment file, databases by absolute
path) to a run result.
-/

namespace InitDb

/-- The Python whitespace class: the exact set of characters for which
`str.isspace()` holds, which is also precisely what `\s` matches in a
regular expression over `str` and what `str.strip()` removes (the three
sets coincide; checked against CPython over the whole code-point range):
tab through carriage return (0x09-0x0D), the separator controls
0x1C-0x1F, the space, next-line 0x85, no-break space 0xA0, Ogham space
mark 0x1680, the typographic spaces 0x2000-0x200A, the line and
paragraph separators 0x2028 and 0x2029, narrow no-break space 0x202F,
medium mathematical space 0x205F, and ideographic space 0x3000. -/
def pyWS (c : Char) : Bool :=
  c == '\t' || c == '\n' || c == '\x0b' || c == '\x0c' || c == '\r'
    || c == '\x1c' || c == '\x1d' || c == '\x1e' || c == '\x1f'
    || c == ' ' || c == '\x85' || c == '\xa0' || c == '\u1680'
    || (0x2000 ≤ c.toNat && c.toNat ≤ 0x200A)
    || c == '\u2028' || c == '\u2029' || c == '\u202F' || c == '\u205F'
    || c == '\u3000'

/-- Python `str.strip()`: remove leading and trailing whitespace. -/
def pyStrip (l : List Char) : List Char :=
  ((l.dropWhile pyWS).reverse.dropWhile pyWS).reverse

/-- Boolean test that the first list is an initial segment of the second. -/
def listStartsWith : List Char → List Char → Bool
  | [], _ => true
  | _ :: _, [] => false
  | p :: ps, c :: cs => p == c && listStartsWith ps cs

/-- Everything in `l` before the first newline (what the regex atom `.+`
can take from the current position, and greedily does). -/
def takeLine (l : List Char) : List Char :=
  l.takeWhile (fun c => !(c == '\n'))

/-- One attempt of the regex `#\s*File path:\s*(.+)\s*$` at a line-start
position of the content, with `re.MULTILINE` semantics: `\s` also matches
newlines (so the whitespace runs may cross line boundaries), `.` does not,
and `$` matches at a line end.  Returns the captured group.  Greediness
makes the attempt deterministic: the `\s*` runs cannot give back
characters usefully because the following atoms start with non-whitespace
requirements.  In the one configuration where the regex can still match
with a whitespace-only capture (everything after `File path:` up to the
end of the content is whitespace with some non-newline character in it),
this function answers `none` instead; the caller strips the capture and
discards an all-whitespace result identically, and no later line of such
a remainder can match, so the final answer of the search is the same. -/
def matchAtPos (s : List Char) : Option (List Char) :=
  match s with
  | [] => none
  | c :: rest =>
    if c == '#' then
      if listStartsWith "File path:".toList (rest.dropWhile pyWS) then
        match ((rest.dropWhile pyWS).drop 10).dropWhile pyWS with
        | [] => none
        | c2 :: cs => some (takeLine (c2 :: cs))
      else none
    else none

/-- Scan for the next line start (the position directly after each
newline) and attempt the regex there; the leftmost position whose attempt
matches wins. -/
def searchNL : List Char → Option (List Char)
  | [] => none
  | c :: t =>
    if c == '\n' then
      match matchAtPos t with
      | some cap => some cap
      | none => searchNL t
    else searchNL t

/-- `re.search(r"^#\s*File path:\s*(.+)\s*$", content, re.MULTILINE)`:
position 0 is a line start, and so is every position after a newline. -/
def searchFP (s : List Char) : Option (List Char) :=
  match matchAtPos s with
  | some cap => some cap
  | none => searchNL s

/-- The regex-and-strip body of `_parse_db_path_from_connection_file`
applied to decoded file content: search for the pattern, take the
captured group, strip it, reject an empty remainder. -/
def parseContentChars (cs : List Char) : Option String :=
  match searchFP cs with
  | none => none
  | some cap =>
    if pyStrip cap = [] then none else some (String.mk (pyStrip cap))

/-- Same, starting from the content as a string. -/
def parse_db_path_content (s : String) : Option String :=
  parseContentChars s.toList

/-- Observable states of the connection-descriptor file as the reader
finds it: missing, present but failing to open with an `OSError`, or
present with (already decoded) text content. -/
inductive DescFile
  | absent : DescFile
  | unreadable : DescFile
  | content : String → DescFile
deriving DecidableEq

/-- `_parse_db_path_from_connection_file`: `None` when the file does not
exist, `None` when `open`/`read` raises `OSError` (caught), otherwise the
regex search result, stripped, with an empty path rejected. -/
def parse_db_path_from_connection_file : DescFile → Option String
  | .absent => none
  | .unreadable => none
  | .content s => parse_db_path_content s

/-- The exception the reader can actually raise: the file is opened with
`encoding="utf-8"`, and a decoding failure raises `UnicodeDecodeError`,
which is a `ValueError` and is not caught by `except OSError`. -/
inductive PyExc
  | unicodeDecodeError : PyExc
deriving DecidableEq

/-- UTF-8 continuation byte. -/
def utf8Cont (b : Nat) : Bool := 0x80 ≤ b && b ≤ 0xBF

/-- Strict UTF-8 decoding as the Python `utf-8` codec performs it:
rejects stray continuation bytes, truncated sequences, overlong
encodings, surrogate code points and code points above U+10FFFF. -/
def utf8DecodeList : List Nat → Option (List Char)
  | [] => some []
  | b :: bs =>
    if b ≤ 0x7F then
      (utf8DecodeList bs).map (fun t => Char.ofNat b :: t)
    else if 0xC2 ≤ b && b ≤ 0xDF then
      match bs with
      | b2 :: bs2 =>
        if utf8Cont b2 then
          (utf8DecodeList bs2).map (fun t =>
            Char.ofNat ((b - 0xC0) * 64 + (b2 - 0x80)) :: t)
        else none
      | [] => none
    else if 0xE0 ≤ b && b ≤ 0xEF then
      match bs with
      | b2 :: b3 :: bs3 =>
        if (((if b = 0xE0 then 0xA0 else 0x80) ≤ b2
              && b2 ≤ (if b = 0xED then 0x9F else 0xBF))
            && utf8Cont b3) then
          (utf8DecodeList bs3).map (fun t =>
            Char.ofNat ((b - 0xE0) * 4096 + (b2 - 0x80) * 64 + (b3 - 0x80)) :: t)
        else none
      | _ => none
    else if 0xF0 ≤ b && b ≤ 0xF4 then
      match bs with
      | b2 :: b3 :: b4 :: bs4 =>
        if (((if b = 0xF0 then 0x90 else 0x80) ≤ b2
              && b2 ≤ (if b = 0xF4 then 0x8F else 0xBF))
            && (utf8Cont b3 && utf8Cont b4)) then
          (utf8DecodeList bs4).map (fun t =>
            Char.ofNat ((b - 0xF0) * 262144 + (b2 - 0x80) * 4096
              + (b3 - 0x80) * 64 + (b4 - 0x80)) :: t)
        else none
      | _ => none
    else none

/-- The descriptor file as found on disk, before decoding: missing,
unopenable with `OSError`, or a sequence of raw bytes. -/
inductive RawDescriptor
  | absent : RawDescriptor
  | unreadable : RawDescriptor
  | bytes : List Nat → RawDescriptor

/-- `_parse_db_path_from_connection_file` down to the byte level.  The
`try` block around `open`/`read` catches only `OSError`; a decoding
failure of the raw bytes therefore propagates out of the function. -/
def parse_db_path_bytes : RawDescriptor → Except PyExc (Option String)
  | .absent => .ok none
  | .unreadable => .ok none
  | .bytes bs =>
    match utf8DecodeList bs with
    | none => .error .unicodeDecodeError
    | some cs => .ok (parseContentChars cs)

/-- Whether a single line (newline-free text) matches the regex
`^#\s*File path:\s*(.+)\s*$` on its own: a hash, optional whitespace, the
literal `File path:`, and at least one further character. -/
def lineMatchesFP (l : String) : Bool :=
  match l.toList with
  | [] => false
  | c :: rest =>
    c == '#'
      && (listStartsWith "File path:".toList (rest.dropWhile pyWS)
          && !((rest.dropWhile pyWS).drop 10).isEmpty)

/-- The stripped capture group of a single line that matches the pattern
on its own; `none` when the line does not match.  For a matching line the
regex captures everything after `File path:` and the following
whitespace, up to the end of the line; stripping that capture equals
stripping everything after the literal `File path:`. -/
def lineCaptureStripped (l : String) : Option String :=
  match l.toList with
  | [] => none
  | c :: rest =>
    if c == '#'
        && (listStartsWith "File path:".toList (rest.dropWhile pyWS)
            && !((rest.dropWhile pyWS).drop 10).isEmpty) then
      some (String.mk (pyStrip ((rest.dropWhile pyWS).drop 10)))
    else none

/-- Split text at newline characters, the way Python `str.split("\n")`
does: n newline characters produce n+1 fields. -/
def splitOnNL : List Char → List (List Char)
  | [] => [[]]
  | c :: t =>
    if c == '\n' then [] :: splitOnNL t
    else
      match splitOnNL t with
      | [] => [[c]]
      | h :: r => (c :: h) :: r

/-- The lines of a file content, as strings. -/
def contentLines (s : String) : List String :=
  (splitOnNL s.toList).map String.mk

def isAbsL (l : List Char) : Bool :=
  match l with
  | [] => false
  | c :: _ => c == '/'

/-- POSIX `Path.is_absolute()` on the string form of a path. -/
def isAbsolutePath (p : String) : Bool := isAbsL p.toList

/-- `Path.name`: the component after the last slash. -/
def baseNameL (l : List Char) : List Char :=
  (l.reverse.takeWhile (fun c => !(c == '/'))).reverse

def baseName (p : String) : String := String.mk (baseNameL p.toList)

/-- `Path.resolve()` against the working directory: an absolute path
stays itself, a relative one is interpreted relative to `cwd`.  The
lexical normalisation `resolve` also performs (collapsing `//` and `.`,
following symlinks) never changes which file is denoted and is not
modelled: paths are represented throughout by the string the script
holds. -/
def resolvePath (cwd p : String) : String :=
  if isAbsolutePath p then p else cwd ++ "/" ++ p

/-- `_write_connection_file`: the exact text written.  The file is opened
with mode `"w"`, so this text fully replaces any previous content. -/
def write_connection_file_text (dbPath : String) : String :=
  "# SQLite connection methods:\n"
    ++ ("# Python: sqlite3.connect(\x27" ++ baseName dbPath ++ "\x27)\n")
    ++ ("# Connection string: sqlite:///" ++ dbPath ++ "\n")
    ++ ("# File path: " ++ dbPath ++ "\n")

/-- `_ensure_visualizer_env`: the text written to
`db_visualizer/sqlite.env` (also opened with mode `"w"`). -/
def ensure_visualizer_env_text (dbPath : String) : String :=
  "export SQLITE_DB=\"" ++ dbPath ++ "\"\n"

/-- A row of the `app_info` table.  `created_at` carries the value of
`CURRENT_TIMESTAMP` at insertion, modelled as an abstract clock value. -/
structure AppInfoRow where
  id : Nat
  key : String
  value : Option String
  created_at : Nat
deriving DecidableEq

/-- A row of the `todos` table (this script never reads or writes such
rows; the type records them so preservation can be stated). -/
structure TodoRow where
  id : Nat
  title : String
  completed : Int
  created_at : Nat
  updated_at : Nat
deriving DecidableEq

/-- The SQLite database file at one path: the two tables this script
manages (`none` means the table is absent), the supporting index, the
AUTOINCREMENT counter backing `app_info.id`, and the names of any
unrelated user tables, which the script never touches.  A missing
database file and an empty freshly-created one coincide here:
`sqlite3.connect` creates an empty database on first use. -/
structure DBState where
  appInfo : Option (List AppInfoRow)
  todos : Option (List TodoRow)
  todosCompletedIndex : Bool
  appInfoSeq : Nat
  otherTables : List String
deriving DecidableEq

def emptyDB : DBState :=
  { appInfo := none, todos := none, todosCompletedIndex := false,
    appInfoSeq := 0, otherTables := [] }

/-- The rows of `app_info` (no rows when the table is absent). -/
def appInfoRows (s : DBState) : List AppInfoRow := s.appInfo.getD []

/-- The rows of `todos` (no rows when the table is absent). -/
def todosRows (s : DBState) : List TodoRow := s.todos.getD []

/-- `INSERT OR REPLACE INTO app_info (key, value) VALUES (?, ?)`: any row
conflicting on the UNIQUE `key` column is deleted and a fresh row is
inserted, with a newly assigned AUTOINCREMENT id `i` and a fresh
`created_at` timestamp `t` (the id column and the timestamp are not named
in the INSERT, so they take their defaults on the replacement row). -/
def upsertRows (rows : List AppInfoRow) (i : Nat) (k : String)
    (v : Option String) (t : Nat) : List AppInfoRow :=
  rows.filter (fun r => !(r.key == k)) ++ [{ id := i, key := k, value := v, created_at := t }]

/-- `_ensure_schema`, at clock value `t`: the five statements in source
order, then `commit`.  `CREATE TABLE IF NOT EXISTS` keeps an existing
table with its rows and otherwise creates an empty one; likewise
`CREATE INDEX IF NOT EXISTS`.  The two upserts run unconditionally. -/
def ensure_schema (t : Nat) (s : DBState) : DBState :=
  -- CREATE TABLE IF NOT EXISTS app_info (...)
  let rows0 := s.appInfo.getD []
  -- CREATE TABLE IF NOT EXISTS todos (...)
  let todos0 := s.todos.getD []
  -- CREATE INDEX IF NOT EXISTS idx_todos_completed ON todos(completed)
  -- INSERT OR REPLACE INTO app_info (key, value) VALUES ("project_name", "simple-to-do-list")
  let rows1 := upsertRows rows0 (s.appInfoSeq + 1) "project_name" (some "simple-to-do-list") t
  -- INSERT OR REPLACE INTO app_info (key, value) VALUES ("version", "0.1.0")
  let rows2 := upsertRows rows1 (s.appInfoSeq + 2) "version" (some "0.1.0") t
  { appInfo := some rows2, todos := some todos0, todosCompletedIndex := true,
    appInfoSeq := s.appInfoSeq + 2, otherTables := s.otherTables }

/-- The world a run acts on: the working directory the process was
started in, the two descriptor files, and the database state at every
absolute filesystem path. -/
structure World where
  cwd : String
  connFile : DescFile
  envFile : Option String
  dbAt : String → DBState

/-- The statistics block `main` queries after reconciliation. -/
structure Report where
  tableCount : Nat
  appInfoCount : Nat
  todosCount : Nat
deriving DecidableEq

/-- Outcome of one invocation of `main`: the final world, the path handed
to `sqlite3.connect`, whether the default-path fallback was taken,
whether the connection handle ended closed, the propagated exception if
any, and the printed statistics. -/
structure RunResult where
  world : World
  openedPath : String
  usedDefault : Bool
  connClosed : Bool
  err : Option String
  report : Option Report

/-- Point update of the path-indexed database map. -/
def updateAt (f : String → DBState) (p : String) (d : DBState) : String → DBState :=
  fun q => if q = p then d else f q

/-- `SELECT COUNT(*) FROM sqlite_master WHERE type='table' AND name NOT
LIKE 'sqlite_%'`: the user tables, managed and unmanaged. -/
def tableCountOf (s : DBState) : Nat :=
  (if s.appInfo.isSome then 1 else 0) + (if s.todos.isSome then 1 else 0)
    + s.otherTables.length

/-- The absolute location of the file the storage engine opens for this
world: the recorded path if the descriptor parses, else
`<cwd>/myapp.db`; interpreted against the working directory when
relative. -/
def targetPath (w : World) : String :=
  resolvePath w.cwd
    ((parse_db_path_from_connection_file w.connFile).getD (w.cwd ++ "/myapp.db"))

/-- `main`, at clock value `t`.  `sqlFail` injects a storage-engine error
(`sqlite3.Error`) inside the `try` block — during the pragmas, schema
creation, metadata upsert or statistics queries; `dbOnFail` is whatever
database state, possibly incomplete, that the failed engine left at the
opened path.  In
both branches the `finally` clause closes the handle; on failure the
exception propagates out of `main` before the two descriptor files are
written, so they keep their prior state. -/
def runMain (w : World) (t : Nat) (sqlFail : Bool) (dbOnFail : DBState) : RunResult :=
  -- db_path = _parse_db_path_from_connection_file(DB_CONNECTION_FILE)
  let parsed := parse_db_path_from_connection_file w.connFile
  -- if db_path is None: db_path = Path(os.getcwd()) / "myapp.db"
  let dbPath := parsed.getD (w.cwd ++ "/myapp.db")
  -- db_path.parent.mkdir(parents=True, exist_ok=True): directory creation
  -- is not otherwise observable in this model.
  -- conn = sqlite3.connect(str(db_path)): the engine opens the file at
  -- dbPath, resolving it against the working directory when relative.
  let phys := resolvePath w.cwd dbPath
  if sqlFail then
    -- try: ... raises sqlite3.Error ... finally: conn.close()
    { world := { w with dbAt := updateAt w.dbAt phys dbOnFail },
      openedPath := dbPath, usedDefault := parsed.isNone,
      connClosed := true, err := some "sqlite3.Error", report := none }
  else
    -- try: pragmas; _ensure_schema(conn); stats; finally: conn.close()
    let db1 := ensure_schema t (w.dbAt phys)
    -- _write_connection_file(DB_CONNECTION_FILE, db_path.resolve())
    -- _ensure_visualizer_env(db_path.resolve())
    { world := { w with
        dbAt := updateAt w.dbAt phys db1,
        connFile := DescFile.content (write_connection_file_text (resolvePath w.cwd dbPath)),
        envFile := some (ensure_visualizer_env_text (resolvePath w.cwd dbPath)) },
      openedPath := dbPath, usedDefault := parsed.isNone,
      connClosed := true, err := none,
      report := some { tableCount := tableCountOf db1,
                       appInfoCount := (appInfoRows db1).length,
                       todosCount := (todosRows db1).length } }

/-- Sanity conditions on the string `os.getcwd()` returns: an absolute
path with no newline and no leading or trailing whitespace. -/
def GoodCwd (cwd : String) : Prop :=
  isAbsolutePath cwd = true ∧ '\n' ∉ cwd.toList ∧ pyStrip cwd.toList = cwd.toList

instance (cwd : String) : Decidable (GoodCwd cwd) := by
  unfold GoodCwd
  infer_instance

/-- Absence of leading or trailing whitespace and of newlines: the
conditions under which a path string survives the round trip through the
descriptor file. -/
def GoodPath (q : String) : Prop :=
  q ≠ "" ∧ '\n' ∉ q.toList ∧ pyStrip q.toList = q.toList

instance (q : String) : Decidable (GoodPath q) := by
  unfold GoodPath
  infer_instance

/-- The rows of `app_info` carrying a given key. -/
def rowsWithKey (s : DBState) (k : String) : List AppInfoRow :=
  (appInfoRows s).filter (fun r => r.key == k)

/-- The key-to-value content of `app_info`, forgetting the auto-assigned
ids and the creation timestamps. -/
def kvList (s : DBState) : List (String × Option String) :=
  (appInfoRows s).map (fun r => (r.key, r.value))

/-- The schema of a database state: which managed tables exist, whether
the index exists, and which unmanaged tables exist. -/
def schemaOf (s : DBState) : Bool × Bool × Bool × List String :=
  (s.appInfo.isSome, s.todos.isSome, s.todosCompletedIndex, s.otherTables)

/-- A world with an empty working directory and no descriptor file. -/
def wAbsent : World :=
  { cwd := "/cwd", connFile := DescFile.absent, envFile := none,
    dbAt := fun _ => emptyDB }

/-- A world whose descriptor records a custom absolute path. -/
def wCustom : World :=
  { cwd := "/cwd",
    connFile := DescFile.content "# File path: /tmp/x/custom.db\n",
    envFile := none, dbAt := fun _ => emptyDB }

/-- A world whose descriptor records a relative path. -/
def wRel : World :=
  { cwd := "/cwd", connFile := DescFile.content "# File path: rel.db\n",
    envFile := none, dbAt := fun _ => emptyDB }

/-- A world whose descriptor has a cross-line whitespace match before a
well-formed `# File path:` line. -/
def wCross : World :=
  { cwd := "/cwd",
    connFile := DescFile.content "#\nFile path: /a\n# File path: /b\n",
    envFile := none, dbAt := fun _ => emptyDB }

/-- A world whose descriptor has no line matching the pattern but still
admits a cross-line regex match. -/
def wCross2 : World :=
  { cwd := "/cwd", connFile := DescFile.content "#\nFile path: /a\n",
    envFile := none, dbAt := fun _ => emptyDB }

/-- A pre-existing todo row. -/
def todoRow1 : TodoRow :=
  { id := 1, title := "buy milk", completed := 0, created_at := 5, updated_at := 5 }

/-- A world whose default-location database already holds one todo row. -/
def wTodos : World :=
  { cwd := "/cwd", connFile := DescFile.absent, envFile := none,
    dbAt := fun _ =>
      { appInfo := none, todos := some [todoRow1], todosCompletedIndex := false,
        appInfoSeq := 0, otherTables := [] } }

theorem dropWhile_stable_cons {p : Char → Bool} {c : Char} {cs : List Char}
    (h : p c = false) : List.dropWhile p (c :: cs) = c :: cs := by
  simp [List.dropWhile_cons, h]

theorem dropWhile_head_false {p : Char → Bool} :
    ∀ {l : List Char} {c : Char} {cs : List Char},
      List.dropWhile p l = c :: cs → p c = false := by
  intro l
  induction l with
  | nil => intro c cs h; simp at h
  | cons a t ih =>
    intro c cs h
    rw [List.dropWhile_cons] at h
    cases hpa : p a with
    | true => rw [hpa, if_pos rfl] at h; exact ih h
    | false =>
      rw [hpa] at h
      simp only [Bool.false_eq_true, if_false, List.cons.injEq] at h
      rw [← h.1]
      exact hpa

theorem pyStrip_stable_iff {l : List Char} :
    pyStrip l = l ↔
      List.dropWhile pyWS l = l ∧ List.dropWhile pyWS l.reverse = l.reverse := by
  constructor
  · intro h
    have h1 : (List.dropWhile pyWS l).Sublist l := List.dropWhile_sublist pyWS
    have h2 : (List.dropWhile pyWS (List.dropWhile pyWS l).reverse).Sublist
        (List.dropWhile pyWS l).reverse := List.dropWhile_sublist pyWS
    have hlen : l.length ≤ (List.dropWhile pyWS l).length := by
      conv_lhs => rw [← h]
      unfold pyStrip
      rw [List.length_reverse]
      exact le_trans h2.length_le (le_of_eq (List.length_reverse _))
    have e1 : List.dropWhile pyWS l = l :=
      h1.eq_of_length (le_antisymm h1.length_le hlen)
    have h' : (List.dropWhile pyWS l.reverse).reverse = l := by
      conv_rhs => rw [← h]
      unfold pyStrip
      rw [e1]
    refine ⟨e1, ?_⟩
    have h'' := congrArg List.reverse h'
    rw [List.reverse_reverse] at h''
    exact h''
  · rintro ⟨h1, h2⟩
    unfold pyStrip
    rw [h1, h2, List.reverse_reverse]

theorem pyStrip_stable_head {l : List Char} {c : Char} {cs : List Char}
    (h : pyStrip l = l) (hl : l = c :: cs) : pyWS c = false := by
  have h1 := (pyStrip_stable_iff.mp h).1
  rw [hl] at h1
  exact dropWhile_head_false h1

theorem pyStrip_stable_last {l : List Char} {c : Char} {cs : List Char}
    (h : pyStrip l = l) (hl : l.reverse = c :: cs) : pyWS c = false := by
  have h2 := (pyStrip_stable_iff.mp h).2
  rw [hl] at h2
  exact dropWhile_head_false h2

theorem pyStrip_stable_of_ends {l : List Char} {c d : Char} {cs ds : List Char}
    (h1 : l = c :: cs) (h2 : l.reverse = d :: ds)
    (hc : pyWS c = false) (hd : pyWS d = false) : pyStrip l = l := by
  apply pyStrip_stable_iff.mpr
  constructor
  · rw [h1]; exact dropWhile_stable_cons hc
  · rw [h2]; exact dropWhile_stable_cons hd

theorem mem_pyStrip {l : List Char} {c : Char} (h : c ∈ pyStrip l) : c ∈ l := by
  unfold pyStrip at h
  rw [List.mem_reverse] at h
  have h2 := List.Sublist.mem h (List.dropWhile_sublist pyWS)
  rw [List.mem_reverse] at h2
  exact List.Sublist.mem h2 (List.dropWhile_sublist pyWS)

theorem pyStrip_idem (l : List Char) : pyStrip (pyStrip l) = pyStrip l := by
  have hsplit : List.takeWhile pyWS (List.dropWhile pyWS l).reverse
      ++ List.dropWhile pyWS (List.dropWhile pyWS l).reverse
      = (List.dropWhile pyWS l).reverse :=
    List.takeWhile_append_dropWhile pyWS ((List.dropWhile pyWS l).reverse)
  apply pyStrip_stable_iff.mpr
  constructor
  · unfold pyStrip
    cases hm : (List.dropWhile pyWS (List.dropWhile pyWS l).reverse).reverse with
    | nil => simp
    | cons c cs =>
      have hrev := congrArg List.reverse hsplit
      rw [List.reverse_append, List.reverse_reverse, hm] at hrev
      exact dropWhile_stable_cons (dropWhile_head_false hrev.symm)
  · unfold pyStrip
    rw [List.reverse_reverse]
    cases hd2 : List.dropWhile pyWS (List.dropWhile pyWS l).reverse with
    | nil => simp
    | cons c cs => exact dropWhile_stable_cons (dropWhile_head_false hd2)

theorem takeLine_append {l : List Char} (r : List Char) (h : '\n' ∉ l) :
    takeLine (l ++ '\n' :: r) = l := by
  induction l with
  | nil => simp [takeLine, List.takeWhile_cons]
  | cons c t ih =>
    have hc : (c == '\n') = false := by
      simp only [beq_eq_false_iff_ne]
      intro hh
      exact h (by rw [hh]; exact List.mem_cons_self '\n' t)
    unfold takeLine at ih ⊢
    rw [List.cons_append, List.takeWhile_cons]
    simp only [hc, Bool.not_false, if_pos]
    rw [ih (fun hm => h (List.mem_cons_of_mem c hm))]

theorem searchNL_append_no_nl {l : List Char} (r : List Char) (h : '\n' ∉ l) :
    searchNL (l ++ r) = searchNL r := by
  induction l with
  | nil => rfl
  | cons c t ih =>
    have hc : (c == '\n') = false := by
      simp only [beq_eq_false_iff_ne]
      intro hh
      exact h (by rw [hh]; exact List.mem_cons_self '\n' t)
    rw [List.cons_append, searchNL, if_neg (by simp [hc])]
    exact ih (fun hm => h (List.mem_cons_of_mem c hm))

theorem splitOnNL_append_line {l : List Char} (r : List Char) (h : '\n' ∉ l) :
    splitOnNL (l ++ '\n' :: r) = l :: splitOnNL r := by
  induction l with
  | nil => simp [splitOnNL]
  | cons c t ih =>
    have hc : (c == '\n') = false := by
      simp only [beq_eq_false_iff_ne]
      intro hh
      exact h (by rw [hh]; exact List.mem_cons_self '\n' t)
    rw [List.cons_append, splitOnNL, if_neg (by simp [hc]),
      ih (fun hm => h (List.mem_cons_of_mem c hm))]

theorem string_ne_empty {s : String} (h : s.toList ≠ []) : s ≠ "" := by
  intro he
  exact h (by rw [he]; rfl)

theorem toList_ne_nil {s : String} (h : s ≠ "") : s.toList ≠ [] := by
  intro hl
  apply h
  have he : s = String.mk s.toList := rfl
  rw [hl] at he
  exact he

theorem takeLine_no_nl (l : List Char) : '\n' ∉ takeLine l := by
  intro hmem
  have := List.mem_takeWhile_imp hmem
  simp at this

theorem matchAtPos_some_takeLine {s cap : List Char}
    (h : matchAtPos s = some cap) : ∃ l, cap = takeLine l := by
  unfold matchAtPos at h
  split at h
  · exact absurd h (by simp)
  · split at h
    · split at h
      · split at h
        · exact absurd h (by simp)
        · injection h with h'
          exact ⟨_, h'.symm⟩
      · exact absurd h (by simp)
    · exact absurd h (by simp)

theorem matchAtPos_no_nl {s cap : List Char}
    (h : matchAtPos s = some cap) : '\n' ∉ cap := by
  obtain ⟨l, rfl⟩ := matchAtPos_some_takeLine h
  exact takeLine_no_nl l

theorem searchNL_some {s cap : List Char} (h : searchNL s = some cap) :
    ∃ t, matchAtPos t = some cap := by
  induction s with
  | nil => simp [searchNL] at h
  | cons c rest ih =>
    rw [searchNL] at h
    split at h
    · split at h
      · next cap2 heq => exact ⟨rest, heq.trans h⟩
      · exact ih h
    · exact ih h

theorem searchFP_some {s cap : List Char} (h : searchFP s = some cap) :
    ∃ t, matchAtPos t = some cap := by
  unfold searchFP at h
  split at h
  · next cap2 heq => exact ⟨s, heq.trans h⟩
  · exact searchNL_some h

theorem parseContentChars_props {cs : List Char} {q : String}
    (h : parseContentChars cs = some q) : GoodPath q := by
  unfold parseContentChars at h
  split at h
  · exact absurd h (by simp)
  · next cap heq =>
    split at h
    · exact absurd h (by simp)
    · next hne =>
      injection h with h'
      subst h'
      refine ⟨?_, ?_, ?_⟩
      · exact string_ne_empty hne
      · intro hmem
        obtain ⟨t, ht⟩ := searchFP_some heq
        exact matchAtPos_no_nl ht (mem_pyStrip hmem)
      · exact pyStrip_idem cap

theorem parse_path_props {d : DescFile} {q : String}
    (h : parse_db_path_from_connection_file d = some q) : GoodPath q := by
  cases d with
  | absent => simp [parse_db_path_from_connection_file] at h
  | unreadable => simp [parse_db_path_from_connection_file] at h
  | content s => exact parseContentChars_props h

theorem isAbs_shape {s : String} (h : isAbsolutePath s = true) :
    ∃ t, s.toList = '/' :: t := by
  unfold isAbsolutePath isAbsL at h
  split at h
  · exact absurd h (by simp)
  · next c t heq =>
    refine ⟨t, ?_⟩
    rw [heq]
    rw [show c = '/' from by simpa using h]

theorem strip_stable_concat {A B : List Char} {c d : Char} {As Bs : List Char}
    (hA : A = c :: As) (hc : pyWS c = false)
    (hB : B.reverse = d :: Bs) (hd : pyWS d = false) :
    pyStrip (A ++ B) = A ++ B := by
  have h1 : A ++ B = c :: (As ++ B) := by rw [hA]; rfl
  have h2 : (A ++ B).reverse = d :: (Bs ++ A.reverse) := by
    rw [List.reverse_append, hB]; rfl
  exact pyStrip_stable_of_ends h1 h2 hc hd

theorem goodPath_last {q : String} (h : GoodPath q) :
    ∃ d ds, q.toList.reverse = d :: ds ∧ pyWS d = false := by
  obtain ⟨h1, _, h3⟩ := h
  cases hrev : q.toList.reverse with
  | nil =>
    exact absurd (by simpa using congrArg List.reverse hrev) (toList_ne_nil h1)
  | cons d ds =>
    exact ⟨d, ds, rfl, pyStrip_stable_last h3 hrev⟩

theorem goodPath_head {q : String} (h : GoodPath q) :
    ∃ c cs, q.toList = c :: cs ∧ pyWS c = false := by
  obtain ⟨h1, _, h3⟩ := h
  cases hl : q.toList with
  | nil => exact absurd hl (toList_ne_nil h1)
  | cons c cs => exact ⟨c, cs, rfl, pyStrip_stable_head h3 hl⟩

theorem resolvePath_good {cwd q : String} (hc : GoodCwd cwd) (hq : GoodPath q) :
    GoodPath (resolvePath cwd q) ∧ isAbsolutePath (resolvePath cwd q) = true := by
  obtain ⟨hc1, hc2, hc3⟩ := hc
  unfold resolvePath
  by_cases ha : isAbsolutePath q = true
  · rw [if_pos ha]
    exact ⟨hq, ha⟩
  · rw [if_neg ha]
    obtain ⟨ct, hcw⟩ := isAbs_shape hc1
    obtain ⟨qd, qs, hrev, hqd⟩ := goodPath_last hq
    have htl : (cwd ++ "/" ++ q).toList = (cwd.toList ++ ['/']) ++ q.toList := rfl
    have hA : cwd.toList ++ ['/'] = '/' :: (ct ++ ['/']) := by rw [hcw]; rfl
    refine ⟨⟨?_, ?_, ?_⟩, ?_⟩
    · apply string_ne_empty
      rw [htl, hcw]
      simp
    · rw [htl]
      intro hmem
      rcases List.mem_append.mp hmem with hm1 | hm2
      · rcases List.mem_append.mp hm1 with hm3 | hm4
        · exact hc2 hm3
        · simp at hm4
      · exact hq.2.1 hm2
    · rw [htl]
      exact strip_stable_concat hA (by decide) hrev hqd
    · unfold isAbsolutePath
      rw [htl, hA]
      simp [isAbsL]

theorem default_path_good {cwd : String} (hc : GoodCwd cwd) :
    GoodPath (cwd ++ "/myapp.db") ∧ isAbsolutePath (cwd ++ "/myapp.db") = true := by
  obtain ⟨hc1, hc2, hc3⟩ := hc
  obtain ⟨ct, hcw⟩ := isAbs_shape hc1
  have htl : (cwd ++ "/myapp.db").toList = cwd.toList ++ "/myapp.db".toList := rfl
  have hB : ("/myapp.db".toList).reverse = 'b' :: "d.ppaym/".toList := by decide
  refine ⟨⟨?_, ?_, ?_⟩, ?_⟩
  · apply string_ne_empty
    rw [htl, hcw]
    simp
  · rw [htl]
    intro hmem
    rcases List.mem_append.mp hmem with hm1 | hm2
    · exact hc2 hm1
    · exact absurd hm2 (by decide)
  · rw [htl]
    exact strip_stable_concat hcw (by decide) hB (by decide)
  · unfold isAbsolutePath
    rw [htl, hcw]
    simp [isAbsL]

theorem mem_baseNameL {l : List Char} {c : Char} (h : c ∈ baseNameL l) : c ∈ l := by
  unfold baseNameL at h
  rw [List.mem_reverse] at h
  have h2 := List.Sublist.mem h (List.takeWhile_sublist _)
  rwa [List.mem_reverse] at h2

theorem toList_append (a b : String) : (a ++ b).toList = a.toList ++ b.toList := rfl

/-- The regex attempt at position 0 of the written descriptor fails: after
the hash, the whitespace run stops at the letter S, which does not begin
`File path:`. -/
theorem matchAtPos_line1 (R : List Char) :
    matchAtPos ("# SQLite connection methods:\n# Python: sqlite3.connect(\x27".toList ++ R)
      = none := rfl

/-- Scanning the first two physical lines of the written descriptor finds
no match: the attempt after the first newline stops at the letter P. -/
theorem searchNL_line12 (R : List Char) :
    searchNL ("# SQLite connection methods:\n# Python: sqlite3.connect(\x27".toList ++ R)
      = searchNL R := rfl

/-- Scanning from the closing quote of the Python hint past the newline
into the connection-string line finds no match either (the attempt stops
at the letter C). -/
theorem searchNL_line23 (R : List Char) :
    searchNL ("\x27)\n# Connection string: sqlite:///".toList ++ R) = searchNL R := rfl

/-- The regex attempt at the start of the `# File path:` line succeeds and
captures exactly the recorded path, provided the path neither starts with
whitespace nor contains a newline. -/
theorem matchAtPos_line4 {pl : List Char} {c : Char} {cs : List Char}
    (hpl : pl = c :: cs) (hc : pyWS c = false) (hnl : '\n' ∉ pl) :
    matchAtPos ("# File path: ".toList ++ (pl ++ ['\n'])) = some pl := by
  have step : matchAtPos ("# File path: ".toList ++ (pl ++ ['\n']))
      = (match (pl ++ ['\n']).dropWhile pyWS with
         | [] => none
         | c2 :: cs2 => some (takeLine (c2 :: cs2))) := rfl
  subst hpl
  rw [step]
  rw [show ((c :: cs) ++ ['\n']).dropWhile pyWS = c :: (cs ++ ['\n']) from by
    rw [List.cons_append]; exact dropWhile_stable_cons hc]
  show some (takeLine (c :: (cs ++ ['\n']))) = some (c :: cs)
  exact congrArg some (takeLine_append [] hnl)

/-- The whole search over the written descriptor, first step: position 0
fails to match and the scan of the first physical line reaches the second
line, all by computation. -/
theorem searchFP_line12 (R : List Char) :
    searchFP ("# SQLite connection methods:\n# Python: sqlite3.connect(\x27".toList ++ R)
      = searchNL R := rfl

/-- Parsing the connection-descriptor text the writer produced for a path
without newlines or surrounding whitespace recovers exactly that path:
the first three physical lines admit no match of the `File path:`
pattern, and the fourth line matches with the path as its capture. -/
theorem parse_write_roundtrip {q : String} (hq : GoodPath q) :
    parse_db_path_content (write_connection_file_text q) = some q := by
  obtain ⟨qc, qcs, hql, hqc⟩ := goodPath_head hq
  have hnl : '\n' ∉ q.toList := hq.2.1
  have hbn : '\n' ∉ baseNameL q.toList := fun hm => hnl (mem_baseNameL hm)
  have hL : (write_connection_file_text q).toList
      = "# SQLite connection methods:\n# Python: sqlite3.connect(\x27".toList
        ++ (baseNameL q.toList
        ++ ("\x27)\n# Connection string: sqlite:///".toList
        ++ (q.toList
        ++ ("\n# File path: ".toList
        ++ (q.toList ++ ['\n']))))) := by
    simp only [write_connection_file_text, baseName, toList_append, List.append_assoc]
    rfl
  have hsearch : searchFP ((write_connection_file_text q).toList) = some q.toList := by
    rw [hL, searchFP_line12, searchNL_append_no_nl _ hbn, searchNL_line23,
      searchNL_append_no_nl _ hnl]
    have hstep : searchNL ("\n# File path: ".toList ++ (q.toList ++ ['\n']))
        = (match matchAtPos ("# File path: ".toList ++ (q.toList ++ ['\n'])) with
           | some cap => some cap
           | none => searchNL ("# File path: ".toList ++ (q.toList ++ ['\n']))) := rfl
    rw [hstep, matchAtPos_line4 hql hqc hnl]
  unfold parse_db_path_content parseContentChars
  rw [hsearch]
  show (if pyStrip q.toList = [] then none
        else some (String.mk (pyStrip q.toList))) = some q
  rw [hq.2.2, if_neg (toList_ne_nil hq.1)]
  rfl

/-- The written descriptor text splits at newlines into exactly the four
advertised lines followed by the empty field a terminating newline
produces. -/
theorem write_text_lines {q : String} (hq : GoodPath q) :
    splitOnNL ((write_connection_file_text q).toList)
      = ["# SQLite connection methods:".toList,
         "# Python: sqlite3.connect(\x27".toList
           ++ (baseNameL q.toList ++ "\x27)".toList),
         "# Connection string: sqlite:///".toList ++ q.toList,
         "# File path: ".toList ++ q.toList,
         []] := by
  have hnl : '\n' ∉ q.toList := hq.2.1
  have hbn : '\n' ∉ baseNameL q.toList := fun hm => hnl (mem_baseNameL hm)
  have hno2 : '\n' ∉ "# Python: sqlite3.connect(\x27".toList
      ++ (baseNameL q.toList ++ "\x27)".toList) := by
    intro hm
    rcases List.mem_append.mp hm with h1 | h2
    · exact absurd h1 (by decide)
    · rcases List.mem_append.mp h2 with h3 | h4
      · exact hbn h3
      · exact absurd h4 (by decide)
  have hno3 : '\n' ∉ "# Connection string: sqlite:///".toList ++ q.toList := by
    intro hm
    rcases List.mem_append.mp hm with h1 | h2
    · exact absurd h1 (by decide)
    · exact hnl h2
  have hno4 : '\n' ∉ "# File path: ".toList ++ q.toList := by
    intro hm
    rcases List.mem_append.mp hm with h1 | h2
    · exact absurd h1 (by decide)
    · exact hnl h2
  have hL2 : (write_connection_file_text q).toList
      = "# SQLite connection methods:".toList
        ++ '\n' :: (("# Python: sqlite3.connect(\x27".toList
              ++ (baseNameL q.toList ++ "\x27)".toList))
        ++ '\n' :: (("# Connection string: sqlite:///".toList ++ q.toList)
        ++ '\n' :: (("# File path: ".toList ++ q.toList)
        ++ '\n' :: []))) := by
    simp only [write_connection_file_text, baseName, toList_append, List.append_assoc]
    rfl
  rw [hL2, splitOnNL_append_line _ (by decide), splitOnNL_append_line _ hno2,
    splitOnNL_append_line _ hno3, splitOnNL_append_line _ hno4]
  rfl

theorem filter_comm (p q : AppInfoRow → Bool) (l : List AppInfoRow) :
    List.filter p (List.filter q l) = List.filter q (List.filter p l) := by
  rw [List.filter_filter, List.filter_filter]
  exact List.filter_congr (fun a _ => by rw [Bool.and_comm])

theorem filter_idem (p : AppInfoRow → Bool) (l : List AppInfoRow) :
    List.filter p (List.filter p l) = List.filter p l := by
  rw [List.filter_filter]
  simp [Bool.and_self]

/-- After an upsert on key `k`, the rows with key `k` are exactly the one
fresh row. -/
theorem filter_upsert_self (rows : List AppInfoRow) (i : Nat) (k : String)
    (v : Option String) (t : Nat) :
    (upsertRows rows i k v t).filter (fun r => r.key == k)
      = [{ id := i, key := k, value := v, created_at := t }] := by
  unfold upsertRows
  rw [List.filter_append]
  have h1 : (rows.filter (fun r => !(r.key == k))).filter (fun r => r.key == k)
      = [] := by
    rw [List.filter_filter]
    induction rows with
    | nil => rfl
    | cons r rs ih =>
      rw [List.filter_cons]
      by_cases hk : r.key = k
      · simp [hk, ih]
      · simp [hk, ih]
  rw [h1]
  simp

/-- An upsert on key `k` leaves the rows with any other key untouched. -/
theorem filter_upsert_other (rows : List AppInfoRow) (i : Nat) (k : String)
    (v : Option String) (t : Nat) (k' : String) (hk : k' ≠ k) :
    (upsertRows rows i k v t).filter (fun r => r.key == k')
      = rows.filter (fun r => r.key == k') := by
  unfold upsertRows
  rw [List.filter_append]
  have h2 : List.filter (fun r => r.key == k')
      [({ id := i, key := k, value := v, created_at := t } : AppInfoRow)] = [] := by
    simp [Ne.symm hk]
  rw [h2, List.append_nil]
  rw [List.filter_filter]
  apply List.filter_congr
  intro r _
  by_cases hr : r.key = k'
  · have : r.key ≠ k := by rw [hr]; exact hk
    simp [hr, this, hk]
  · simp [hr]

/-- The rows of `app_info` after `_ensure_schema`: all rows under keys
other than the two managed ones, in their original order, followed by the
two freshly upserted rows. -/
theorem ensure_schema_rows (t : Nat) (s : DBState) :
    appInfoRows (ensure_schema t s)
      = ((appInfoRows s).filter (fun r => !(r.key == "project_name"))).filter
            (fun r => !(r.key == "version"))
        ++ [{ id := s.appInfoSeq + 1, key := "project_name",
              value := some "simple-to-do-list", created_at := t },
            { id := s.appInfoSeq + 2, key := "version",
              value := some "0.1.0", created_at := t }] := by
  unfold ensure_schema upsertRows appInfoRows
  simp [List.filter_append, List.filter_cons, List.append_assoc]

theorem ensure_schema_todos (t : Nat) (s : DBState) :
    (ensure_schema t s).todos = some (todosRows s) := rfl

theorem ensure_schema_appInfo_isSome (t : Nat) (s : DBState) :
    (ensure_schema t s).appInfo.isSome = true := rfl

theorem parse_conn_content (s : String) :
    parse_db_path_from_connection_file (DescFile.content s)
      = parse_db_path_content s := rfl

theorem runMain_openedPath (w : World) (t : Nat) (b : Bool) (dbf : DBState) :
    (runMain w t b dbf).openedPath
      = (parse_db_path_from_connection_file w.connFile).getD (w.cwd ++ "/myapp.db") := by
  cases b <;> simp [runMain]

theorem runMain_usedDefault (w : World) (t : Nat) (b : Bool) (dbf : DBState) :
    (runMain w t b dbf).usedDefault
      = (parse_db_path_from_connection_file w.connFile).isNone := by
  cases b <;> simp [runMain]

theorem runMain_cwd (w : World) (t : Nat) (b : Bool) (dbf : DBState) :
    (runMain w t b dbf).world.cwd = w.cwd := by
  cases b <;> simp [runMain]

/-- On a successful run the database at the opened location is the old one
reconciled by `_ensure_schema`. -/
theorem runMain_ok_db (w : World) (t : Nat) (dbf : DBState) :
    (runMain w t false dbf).world.dbAt (targetPath w)
      = ensure_schema t (w.dbAt (targetPath w)) := by
  simp [runMain, targetPath, updateAt]

/-- On a successful run the descriptor file is replaced with the writer
output for the resolved absolute path. -/
theorem runMain_ok_connFile (w : World) (t : Nat) (dbf : DBState) :
    (runMain w t false dbf).world.connFile
      = DescFile.content (write_connection_file_text (targetPath w)) := by
  simp [runMain, targetPath]

theorem runMain_ok_envFile (w : World) (t : Nat) (dbf : DBState) :
    (runMain w t false dbf).world.envFile
      = some (ensure_visualizer_env_text (targetPath w)) := by
  simp [runMain, targetPath]

theorem runMain_ok_report (w : World) (t : Nat) (dbf : DBState) :
    (runMain w t false dbf).report
      = some { tableCount := tableCountOf (ensure_schema t (w.dbAt (targetPath w))),
               appInfoCount :=
                 (appInfoRows (ensure_schema t (w.dbAt (targetPath w)))).length,
               todosCount :=
                 (todosRows (ensure_schema t (w.dbAt (targetPath w)))).length } := by
  simp [runMain, targetPath]

/-- The absolute location the engine opens is a well-formed absolute
path whenever the working directory is. -/
theorem targetPath_good (w : World) (hc : GoodCwd w.cwd) :
    GoodPath (targetPath w) ∧ isAbsolutePath (targetPath w) = true := by
  unfold targetPath
  cases hp : parse_db_path_from_connection_file w.connFile with
  | none =>
    simp only [hp, Option.getD_none]
    exact resolvePath_good hc (default_path_good hc).1
  | some p =>
    simp only [hp, Option.getD_some]
    exact resolvePath_good hc (parse_path_props hp)

/-- A successful run rewrites the descriptor so that the next run resolves
the same absolute location. -/
theorem targetPath_after_run (w : World) (t : Nat) (dbf : DBState)
    (hc : GoodCwd w.cwd) :
    targetPath (runMain w t false dbf).world = targetPath w := by
  have hg := targetPath_good w hc
  show resolvePath (runMain w t false dbf).world.cwd
      ((parse_db_path_from_connection_file
          (runMain w t false dbf).world.connFile).getD
        ((runMain w t false dbf).world.cwd ++ "/myapp.db")) = targetPath w
  rw [runMain_ok_connFile, runMain_cwd, parse_conn_content,
    parse_write_roundtrip hg.1, Option.getD_some]
  unfold resolvePath
  rw [if_pos hg.2]

theorem filter_f1f2_idem (X : List AppInfoRow) :
    ((((X.filter (fun r => !(r.key == "project_name"))).filter
          (fun r => !(r.key == "version"))).filter
          (fun r => !(r.key == "project_name"))).filter
          (fun r => !(r.key == "version")))
      = (X.filter (fun r => !(r.key == "project_name"))).filter
          (fun r => !(r.key == "version")) := by
  rw [filter_comm (fun r => !(r.key == "project_name"))
      (fun r => !(r.key == "version"))
      (X.filter (fun r => !(r.key == "project_name"))),
    filter_idem (fun r => !(r.key == "project_name")) X,
    filter_idem (fun r => !(r.key == "version"))
      (X.filter (fun r => !(r.key == "project_name")))]

/-- Reconciling twice changes neither the keys nor the values of
`app_info` relative to reconciling once (only the auto-assigned ids and
timestamps of the two managed rows are regenerated). -/
theorem kvList_ensure_twice (t1 t2 : Nat) (D : DBState) :
    kvList (ensure_schema t2 (ensure_schema t1 D)) = kvList (ensure_schema t1 D) := by
  unfold kvList
  rw [ensure_schema_rows t2 (ensure_schema t1 D), ensure_schema_rows t1 D]
  simp [List.filter_append, List.filter_cons, List.map_append, List.append_assoc]
  congr 1
  apply List.filter_congr
  intro a _
  cases h1 : a.key == "version" <;> cases h2 : a.key == "project_name" <;>
    simp [h1, h2]

/- ### Claim C1 -/

/-- C1, counterexample.  The descriptor content
`"#\nFile path: /a\n# File path: /b\n"` contains exactly one line matching
the pattern `^#\s*File path:\s*(.+)\s*$`, namely `# File path: /b` with
non-empty trimmed capture `/b`; yet the run opens the database at `/a`,
because the multiline search finds an earlier match in which the `\s*`
after the hash crosses the first newline.  This refutes the claim that
the run opens exactly the path recorded on such a line. -/
theorem c1_counterexample :
    "# File path: /b" ∈ contentLines "#\nFile path: /a\n# File path: /b\n"
      ∧ lineCaptureStripped "# File path: /b" = some "/b"
      ∧ ("/b" : String) ≠ ""
      ∧ (runMain wCross 0 false emptyDB).openedPath = "/a"
      ∧ (runMain wCross 0 false emptyDB).openedPath ≠ "/b" := by
  refine ⟨by decide, by decide, by decide, by decide, by decide⟩

/-- C1 (amended).  If the Connection Descriptor file exists and the
multiline regex search over its content (Python semantics, in which the
whitespace runs of the pattern may cross newlines) yields a capture that
is non-empty after trimming — the resolver result `some p` — then the run
opens/creates the database at exactly that recorded path `p`, and the
default-path fallback branch is not taken. -/
theorem c1_path_authority (w : World) (t : Nat) (b : Bool) (dbf : DBState)
    (p : String) (h : parse_db_path_from_connection_file w.connFile = some p) :
    (runMain w t b dbf).openedPath = p
      ∧ (runMain w t b dbf).usedDefault = false := by
  rw [runMain_openedPath, runMain_usedDefault, h]
  exact ⟨rfl, rfl⟩

theorem c1_witness :
    parse_db_path_from_connection_file wCustom.connFile = some "/tmp/x/custom.db"
      ∧ ((runMain wCustom 0 false emptyDB).openedPath = "/tmp/x/custom.db"
          ∧ (runMain wCustom 0 false emptyDB).usedDefault = false) :=
  ⟨by decide, c1_path_authority wCustom 0 false emptyDB "/tmp/x/custom.db" (by decide)⟩

/- ### Claim C2 -/

/-- C2, counterexample.  In the content `"#\nFile path: /a\n"` no line
matches the `# File path:` pattern (the three lines are `#`,
`File path: /a` and the empty line), yet the resolver yields `/a` — the
regex matches across the newline — so the run does not use the default
`<cwd>/myapp.db`.  This refutes the claim that a descriptor with no
matching line always falls back to the default path. -/
theorem c2_counterexample :
    (contentLines "#\nFile path: /a\n").map lineMatchesFP = [false, false, false]
      ∧ parse_db_path_from_connection_file wCross2.connFile = some "/a"
      ∧ (runMain wCross2 0 false emptyDB).openedPath = "/a"
      ∧ (runMain wCross2 0 false emptyDB).openedPath ≠ "/cwd/myapp.db"
      ∧ (runMain wCross2 0 false emptyDB).usedDefault = false := by
  refine ⟨by decide, by decide, by decide, by decide, by decide⟩

/-- C2 (amended).  Whenever the descriptor file is missing, unreadable
(`OSError`), or its content admits no match of the multiline regex
search, or the capture of the found match is empty after trimming, the
resolver yields no path and the run uses the default `<cwd>/myapp.db`. -/
theorem c2_malformed_fallback (w : World) (t : Nat) (b : Bool) (dbf : DBState)
    (h : w.connFile = DescFile.absent ∨ w.connFile = DescFile.unreadable
        ∨ (∃ c, w.connFile = DescFile.content c
            ∧ (searchFP c.toList = none
                ∨ ∃ cap, searchFP c.toList = some cap ∧ pyStrip cap = []))) :
    parse_db_path_from_connection_file w.connFile = none
      ∧ (runMain w t b dbf).openedPath = w.cwd ++ "/myapp.db"
      ∧ (runMain w t b dbf).usedDefault = true := by
  have hp : parse_db_path_from_connection_file w.connFile = none := by
    rcases h with h | h | ⟨c, hc, hcase⟩
    · rw [h]; rfl
    · rw [h]; rfl
    · rw [hc]
      show parseContentChars c.toList = none
      unfold parseContentChars
      rcases hcase with hs | ⟨cap, hs, hstrip⟩
      · rw [hs]
      · rw [hs]
        show (if pyStrip cap = [] then none
              else some (String.mk (pyStrip cap))) = none
        rw [if_pos hstrip]
  refine ⟨hp, ?_, ?_⟩
  · rw [runMain_openedPath, hp, Option.getD_none]
  · rw [runMain_usedDefault, hp]
    rfl

theorem c2_witness :
    wAbsent.connFile = DescFile.absent
      ∧ (parse_db_path_from_connection_file wAbsent.connFile = none
          ∧ (runMain wAbsent 0 false emptyDB).openedPath = wAbsent.cwd ++ "/myapp.db"
          ∧ (runMain wAbsent 0 false emptyDB).usedDefault = true) :=
  ⟨rfl, c2_malformed_fallback wAbsent 0 false emptyDB (Or.inl rfl)⟩

/- ### Claim C3 -/

/-- C3, counterexample.  The one-byte content `0xFF` is not decodable as
UTF-8, so reading the descriptor raises `UnicodeDecodeError`, which the
reader catches nowhere (its handler covers only `OSError`): the resolver
raises instead of degrading to the no-path result.  This refutes the
claim that the resolver never raises for every possible byte content. -/
theorem c3_counterexample :
    parse_db_path_bytes (RawDescriptor.bytes [255])
      = Except.error PyExc.unicodeDecodeError := rfl

/-- C3 (amended).  For every descriptor state whose byte content decodes
as UTF-8 text (and when the file is missing or unreadable), the resolver
never raises: malformed or partially-written text degrades to the
no-path result rather than propagating an error.  Byte content that is
not valid UTF-8 instead raises a `UnicodeDecodeError`, which the
`except OSError` handler does not catch. -/
theorem c3_resolver_no_raise (d : RawDescriptor)
    (h : ∀ bs, d = RawDescriptor.bytes bs → ∃ cs, utf8DecodeList bs = some cs) :
    ∃ r, parse_db_path_bytes d = Except.ok r := by
  cases d with
  | absent => exact ⟨none, rfl⟩
  | unreadable => exact ⟨none, rfl⟩
  | bytes bs =>
    obtain ⟨cs, hcs⟩ := h bs rfl
    refine ⟨parseContentChars cs, ?_⟩
    show (match utf8DecodeList bs with
          | none => Except.error PyExc.unicodeDecodeError
          | some cs => Except.ok (parseContentChars cs)) = _
    rw [hcs]

theorem c3_witness :
    (∃ cs, utf8DecodeList [97, 98, 99] = some cs)
      ∧ (∃ r, parse_db_path_bytes (RawDescriptor.bytes [97, 98, 99]) = Except.ok r) :=
  ⟨⟨['a', 'b', 'c'], by decide⟩,
    c3_resolver_no_raise (RawDescriptor.bytes [97, 98, 99])
      (fun bs hb => by
        injection hb with h
        exact ⟨['a', 'b', 'c'], by rw [← h]; decide⟩)⟩

/- ### Claim C6 -/

/-- C6, counterexample.  A descriptor recording the relative path
`rel.db` makes the resolver produce `rel.db` itself, and the run hands
exactly this relative string to `sqlite3.connect`: the produced path is
not absolute.  This refutes the claim that the resolver output is an
absolute path for every descriptor state. -/
theorem c6_counterexample :
    parse_db_path_from_connection_file wRel.connFile = some "rel.db"
      ∧ (runMain wRel 0 false emptyDB).openedPath = "rel.db"
      ∧ isAbsolutePath (runMain wRel 0 false emptyDB).openedPath = false := by
  refine ⟨by decide, by decide, by decide⟩

/-- C6 (amended).  When the resolver finds no recorded path, or the
recorded path is absolute, the path handed to the storage engine is
absolute; a recorded relative path is passed through exactly as
recorded (the engine then interprets it against the working directory,
so the physical location `targetPath` is absolute in every case). -/
theorem c6_absolute_path (w : World) (t : Nat) (b : Bool) (dbf : DBState)
    (hc : GoodCwd w.cwd) :
    ((parse_db_path_from_connection_file w.connFile = none
        ∨ ∃ p, parse_db_path_from_connection_file w.connFile = some p
            ∧ isAbsolutePath p = true)
      → isAbsolutePath (runMain w t b dbf).openedPath = true)
    ∧ (∀ p, parse_db_path_from_connection_file w.connFile = some p
        → (runMain w t b dbf).openedPath = p)
    ∧ isAbsolutePath (targetPath w) = true := by
  refine ⟨?_, ?_, (targetPath_good w hc).2⟩
  · intro h
    rw [runMain_openedPath]
    rcases h with h | ⟨p, hp, habs⟩
    · rw [h, Option.getD_none]
      exact (default_path_good hc).2
    · rw [hp, Option.getD_some]
      exact habs
  · intro p hp
    rw [runMain_openedPath, hp, Option.getD_some]

theorem c6_witness :
    GoodCwd wAbsent.cwd
      ∧ isAbsolutePath (runMain wAbsent 0 false emptyDB).openedPath = true :=
  ⟨by decide,
    (c6_absolute_path wAbsent 0 false emptyDB (by decide)).1 (Or.inl (by decide))⟩

/- ### Claim C8 -/

/-- C8.  On every exit path of the run the database handle is closed
(the `finally` clause), and a storage-engine error propagates as a fatal
error that aborts the run before either descriptor file is written: on
the failing branch the connection-descriptor file and the environment
file keep exactly their prior states. -/
theorem c8_handle_closed (w : World) (t : Nat) (b : Bool) (dbf : DBState) :
    (runMain w t b dbf).connClosed = true
      ∧ (b = true →
          (runMain w t b dbf).err = some "sqlite3.Error"
            ∧ (runMain w t b dbf).world.connFile = w.connFile
            ∧ (runMain w t b dbf).world.envFile = w.envFile)
      ∧ (b = false → (runMain w t b dbf).err = none) := by
  cases b <;> simp [runMain]

theorem c8_witness :
    (runMain wAbsent 0 true emptyDB).connClosed = true
      ∧ (runMain wAbsent 0 true emptyDB).err = some "sqlite3.Error"
      ∧ (runMain wAbsent 0 true emptyDB).world.connFile = wAbsent.connFile
      ∧ (runMain wAbsent 0 true emptyDB).world.envFile = wAbsent.envFile := by
  have h := c8_handle_closed wAbsent 0 true emptyDB
  exact ⟨h.1, (h.2.1 rfl).1, (h.2.1 rfl).2.1, (h.2.1 rfl).2.2⟩

/- ### Claim C10 -/

/-- C10.  Round trip of the descriptor format: for every path whose
string form is non-empty, contains no newline and carries no leading or
trailing whitespace, parsing the descriptor text the Configuration
Writer produced for it yields exactly that path.  (The empty string is
excluded because it is not the string form of any path: `Path` renders
the empty input as the dot path.) -/
theorem c10_write_parse_roundtrip (p : String) (h1 : p ≠ "")
    (h2 : '\n' ∉ p.toList) (h3 : pyStrip p.toList = p.toList) :
    parse_db_path_content (write_connection_file_text p) = some p :=
  parse_write_roundtrip ⟨h1, h2, h3⟩

theorem c10_witness :
    (("/tmp/x.db" : String) ≠ ""
        ∧ '\n' ∉ ("/tmp/x.db" : String).toList
        ∧ pyStrip ("/tmp/x.db" : String).toList = ("/tmp/x.db" : String).toList)
      ∧ parse_db_path_content (write_connection_file_text "/tmp/x.db")
          = some "/tmp/x.db" :=
  ⟨⟨by decide, by decide, by decide⟩,
    c10_write_parse_roundtrip "/tmp/x.db" (by decide) (by decide) (by decide)⟩

/- ### Claim C4 -/

/-- C4.  Idempotence: running the whole procedure twice in succession
against the same working directory produces, at the database location the
first run used, an identical schema and identical metadata keys and
values after the second run as after the first (only the auto-assigned
ids and timestamps of the two managed rows are regenerated by the
upserts), and the todos row count — indeed the full todos row list — is
unchanged by either run. -/
theorem c4_idempotent (w : World) (t1 t2 : Nat) (dbf dbf2 : DBState)
    (hc : GoodCwd w.cwd) :
    schemaOf ((runMain (runMain w t1 false dbf).world t2 false dbf2).world.dbAt
          (targetPath w))
        = schemaOf ((runMain w t1 false dbf).world.dbAt (targetPath w))
      ∧ kvList ((runMain (runMain w t1 false dbf).world t2 false dbf2).world.dbAt
            (targetPath w))
          = kvList ((runMain w t1 false dbf).world.dbAt (targetPath w))
      ∧ todosRows ((runMain w t1 false dbf).world.dbAt (targetPath w))
          = todosRows (w.dbAt (targetPath w))
      ∧ todosRows ((runMain (runMain w t1 false dbf).world t2 false dbf2).world.dbAt
            (targetPath w))
          = todosRows ((runMain w t1 false dbf).world.dbAt (targetPath w)) := by
  have htp := targetPath_after_run w t1 dbf hc
  have e2 : (runMain (runMain w t1 false dbf).world t2 false dbf2).world.dbAt
        (targetPath w)
      = ensure_schema t2 (ensure_schema t1 (w.dbAt (targetPath w))) := by
    conv_lhs => rw [← htp]
    rw [runMain_ok_db, htp, runMain_ok_db]
  have e1 : (runMain w t1 false dbf).world.dbAt (targetPath w)
      = ensure_schema t1 (w.dbAt (targetPath w)) := runMain_ok_db w t1 dbf
  rw [e1, e2]
  exact ⟨rfl, kvList_ensure_twice t1 t2 (w.dbAt (targetPath w)), rfl, rfl⟩

theorem c4_witness :
    GoodCwd wAbsent.cwd
      ∧ (schemaOf ((runMain (runMain wAbsent 1 false emptyDB).world 2 false
              emptyDB).world.dbAt (targetPath wAbsent))
            = schemaOf ((runMain wAbsent 1 false emptyDB).world.dbAt
              (targetPath wAbsent))
          ∧ kvList ((runMain (runMain wAbsent 1 false emptyDB).world 2 false
                emptyDB).world.dbAt (targetPath wAbsent))
              = kvList ((runMain wAbsent 1 false emptyDB).world.dbAt
                (targetPath wAbsent))
          ∧ todosRows ((runMain wAbsent 1 false emptyDB).world.dbAt
                (targetPath wAbsent))
              = todosRows (wAbsent.dbAt (targetPath wAbsent))
          ∧ todosRows ((runMain (runMain wAbsent 1 false emptyDB).world 2 false
                emptyDB).world.dbAt (targetPath wAbsent))
              = todosRows ((runMain wAbsent 1 false emptyDB).world.dbAt
                (targetPath wAbsent))) :=
  ⟨by decide, c4_idempotent wAbsent 1 2 emptyDB emptyDB (by decide)⟩

/- ### Claim C5 -/

/-- C5.  After any successful run, regardless of the prior state of the
database at the opened location, `app_info` contains exactly one row
keyed `project_name` and exactly one row keyed `version`, and the rows
under every other key are exactly the rows that were there before the
run, in their original order. -/
theorem c5_metadata_upsert (w : World) (t : Nat) (dbf : DBState) :
    (rowsWithKey ((runMain w t false dbf).world.dbAt (targetPath w))
        "project_name").length = 1
      ∧ (rowsWithKey ((runMain w t false dbf).world.dbAt (targetPath w))
          "version").length = 1
      ∧ ∀ k, k ≠ "project_name" → k ≠ "version" →
          rowsWithKey ((runMain w t false dbf).world.dbAt (targetPath w)) k
            = rowsWithKey (w.dbAt (targetPath w)) k := by
  rw [runMain_ok_db]
  have he : appInfoRows (ensure_schema t (w.dbAt (targetPath w)))
      = upsertRows (upsertRows (appInfoRows (w.dbAt (targetPath w)))
            ((w.dbAt (targetPath w)).appInfoSeq + 1) "project_name"
            (some "simple-to-do-list") t)
          ((w.dbAt (targetPath w)).appInfoSeq + 2) "version" (some "0.1.0") t := rfl
  refine ⟨?_, ?_, ?_⟩
  · unfold rowsWithKey
    rw [he, filter_upsert_other _ _ _ _ _ _ (by decide), filter_upsert_self]
    rfl
  · unfold rowsWithKey
    rw [he, filter_upsert_self]
    rfl
  · intro k hk1 hk2
    unfold rowsWithKey
    rw [he, filter_upsert_other _ _ _ _ _ _ hk2, filter_upsert_other _ _ _ _ _ _ hk1]

theorem c5_witness :
    (rowsWithKey ((runMain wAbsent 0 false emptyDB).world.dbAt
        (targetPath wAbsent)) "project_name").length = 1
      ∧ (rowsWithKey ((runMain wAbsent 0 false emptyDB).world.dbAt
          (targetPath wAbsent)) "version").length = 1
      ∧ rowsWithKey ((runMain wAbsent 0 false emptyDB).world.dbAt
            (targetPath wAbsent)) "other"
          = rowsWithKey (wAbsent.dbAt (targetPath wAbsent)) "other" := by
  have h := c5_metadata_upsert wAbsent 0 emptyDB
  exact ⟨h.1, h.2.1, h.2.2 "other" (by decide) (by decide)⟩

/- ### Claim C7 -/

/-- C7.  On every successful run the Connection Descriptor is replaced
outright with the writer output for the resolved absolute database path
(no append or merge: the new content is a function of that path alone),
and that text consists of exactly four newline-terminated lines — the
header comment, the Python hint embedding the file name of the database,
the `sqlite:///` connection-string line, and the final
`# File path:` line — with the resolved path absolute. -/
theorem c7_writer_format (w : World) (t : Nat) (dbf : DBState)
    (hc : GoodCwd w.cwd) :
    (runMain w t false dbf).world.connFile
        = DescFile.content (write_connection_file_text (targetPath w))
      ∧ targetPath w = resolvePath w.cwd ((runMain w t false dbf).openedPath)
      ∧ splitOnNL ((write_connection_file_text (targetPath w)).toList)
          = ["# SQLite connection methods:".toList,
             "# Python: sqlite3.connect(\x27".toList
               ++ (baseNameL (targetPath w).toList ++ "\x27)".toList),
             "# Connection string: sqlite:///".toList ++ (targetPath w).toList,
             "# File path: ".toList ++ (targetPath w).toList,
             []]
      ∧ isAbsolutePath (targetPath w) = true := by
  have hg := targetPath_good w hc
  refine ⟨runMain_ok_connFile w t dbf, ?_, write_text_lines hg.1, hg.2⟩
  rw [runMain_openedPath]
  rfl

theorem c7_witness :
    GoodCwd wAbsent.cwd
      ∧ ((runMain wAbsent 0 false emptyDB).world.connFile
            = DescFile.content (write_connection_file_text (targetPath wAbsent))
          ∧ targetPath wAbsent
              = resolvePath wAbsent.cwd ((runMain wAbsent 0 false emptyDB).openedPath)
          ∧ splitOnNL ((write_connection_file_text (targetPath wAbsent)).toList)
              = ["# SQLite connection methods:".toList,
                 "# Python: sqlite3.connect(\x27".toList
                   ++ (baseNameL (targetPath wAbsent).toList ++ "\x27)".toList),
                 "# Connection string: sqlite:///".toList
                   ++ (targetPath wAbsent).toList,
                 "# File path: ".toList ++ (targetPath wAbsent).toList,
                 []]
          ∧ isAbsolutePath (targetPath wAbsent) = true) :=
  ⟨by decide, c7_writer_format wAbsent 0 emptyDB (by decide)⟩

/- ### Claim C9 -/

/-- C9.  Non-destructive re-init: whatever rows the todos table holds at
the opened location before a successful run, it holds exactly the same
rows afterwards (no todos row is inserted, updated or deleted), and the
reported todos count is their number. -/
theorem c9_non_destructive (w : World) (t : Nat) (dbf : DBState)
    (rows : List TodoRow) (h : (w.dbAt (targetPath w)).todos = some rows) :
    ((runMain w t false dbf).world.dbAt (targetPath w)).todos = some rows
      ∧ (runMain w t false dbf).report.map Report.todosCount
          = some rows.length := by
  have ht : todosRows (w.dbAt (targetPath w)) = rows := by
    unfold todosRows
    rw [h]
    rfl
  constructor
  · rw [runMain_ok_db, ensure_schema_todos, ht]
  · rw [runMain_ok_report]
    show some (todosRows (ensure_schema t (w.dbAt (targetPath w)))).length
        = some rows.length
    rw [show todosRows (ensure_schema t (w.dbAt (targetPath w)))
        = todosRows (w.dbAt (targetPath w)) from rfl, ht]

theorem c9_witness :
    (wTodos.dbAt (targetPath wTodos)).todos = some [todoRow1]
      ∧ (((runMain wTodos 0 false emptyDB).world.dbAt (targetPath wTodos)).todos
            = some [todoRow1]
          ∧ (runMain wTodos 0 false emptyDB).report.map Report.todosCount
              = some [todoRow1].length) :=
  ⟨by decide, c9_non_destructive wTodos 0 emptyDB [todoRow1] (by decide)⟩

/- Sanity checks of the parser against the observable behaviour of
`re.search` with this pattern (the expected values below reproduce what
the Python implementation returns on the same inputs). -/
example : parse_db_path_content "# File path: /tmp/x/custom.db\n" = some "/tmp/x/custom.db" := by decide
example : parse_db_path_content "#\nFile path: /a\n" = some "/a" := by decide
example : parse_db_path_content "#\nFile path: /a\n# File path: /b\n" = some "/a" := by decide
example : parse_db_path_content "# File path:\n/a\n" = some "/a" := by decide
example : parse_db_path_content "# File path: \nabc" = some "abc" := by decide
example : parse_db_path_content "# File path:   \n" = none := by decide
example : parse_db_path_content "# File path:\n" = none := by decide
example : parse_db_path_content "# File path: /a  \nmore" = some "/a" := by decide
example : parse_db_path_content "# File path: rel.db" = some "rel.db" := by decide
example : parse_db_path_content "## File path: /h\n" = none := by decide
example : parse_db_path_content "#\t \nFile path: /i\n" = some "/i" := by decide
example : parse_db_path_content "x# File path: /j\n" = none := by decide
example : parse_db_path_content "# file path: /k\n" = none := by decide
example : parse_db_path_content "junk\n# File path: /z\n" = some "/z" := by decide
example : parse_db_path_content "#File path:/weird\n" = some "/weird" := by decide
example : parse_db_path_content "# File path:me\n" = some "me" := by decide
example : parse_db_path_content "# File path: \t\n \n" = none := by decide
example : parse_db_path_content "# File path:   \n# File path: /x\n" = some "# File path: /x" := by decide
example : parse_db_path_content "# File path: /a\x1c\n" = some "/a" := by decide
example : parse_db_path_content "#\x1cFile path: /a\n" = some "/a" := by decide
example : parse_db_path_content "# File path: \x1c\n" = none := by decide
example : parse_db_path_content "# File path:\xa0/b\n" = some "/b" := by decide
example : parse_db_path_content "#\u3000File path: /c\n" = some "/c" := by decide
example : parse_db_path_content "# File path: /d\x85\n" = some "/d" := by decide
example : parse_db_path_content "# File path: \x1cx\n" = some "x" := by decide
example :
    parse_db_path_content (write_connection_file_text "/tmp/x.db") = some "/tmp/x.db" := by decide
example : utf8DecodeList [0xFF] = none := by decide
example : utf8DecodeList [0x61, 0x62] = some ['a', 'b'] := by decide
example : utf8DecodeList [0xC3, 0xA9] = some [Char.ofNat 0xE9] := by decide
example : utf8DecodeList [0xC0, 0x80] = none := by decide
example : utf8DecodeList [0xED, 0xA0, 0x80] = none := by decide


end InitDb
